import Mathlib

/-!
Verification of the Motion-to-Heat pipeline of the Humanize repository.

The definitions below are shallow embeddings of the TypeScript source:
  - `movementToColor`, `applyHeatDecay`      from src/utils/heatmapUtils.ts
  - `decayPass`, `updatePassFrom`, `heatTick` from the render loop of
    src/components/HeatmapRenderer.tsx (heat accumulator)
  - `calculateLandmarkDistance`, `calculateMovementIntensity`,
    `normalizeMovement`, `LANDMARK_REGIONS`, `getBodyRegionMovement`
    from src/utils/motionUtils.ts
  - `analyzerThreshold`, `motionAnalyzerStep` from
    src/components/MotionAnalyzer.tsx
  - `detectRaisedHands` from src/utils/gestureUtils.ts

JavaScript numbers are modelled as exact rationals; the square roots
produced by Math.sqrt are modelled by Real.sqrt, so distance-valued
quantities live in the reals.
-/

/-- A MediaPipe pose landmark: normalized position plus a visibility score. -/
structure Landmark where
  x : ℚ
  y : ℚ
  z : ℚ
  visibility : ℚ
deriving DecidableEq

/-- An RGB triple with integer channel semantics. -/
structure RGBColor where
  r : ℤ
  g : ℤ
  b : ℤ
deriving DecidableEq

/-- movementToColor from heatmapUtils: clamp intensity to [0,1] and apply the
three-segment blue→green→yellow→red gradient, flooring each channel. -/
def movementToColor (intensity : ℚ) : RGBColor :=
  let clamped := max 0 (min 1 intensity)
  if clamped < 33/100 then
    let t := clamped / (33/100)
    ⟨⌊(0 : ℚ) * (1 - t) + 0 * t⌋, ⌊(100 : ℚ) * (1 - t) + 255 * t⌋,
      ⌊(255 : ℚ) * (1 - t) + 0 * t⌋⟩
  else if clamped < 66/100 then
    let t := (clamped - 33/100) / (33/100)
    ⟨⌊(0 : ℚ) * (1 - t) + 255 * t⌋, ⌊(255 : ℚ) * (1 - t) + 255 * t⌋,
      ⌊(0 : ℚ) * (1 - t) + 0 * t⌋⟩
  else
    let t := (clamped - 66/100) / (34/100)
    ⟨⌊(255 : ℚ) * (1 - t) + 255 * t⌋, ⌊(255 : ℚ) * (1 - t) + 0 * t⌋,
      ⌊(0 : ℚ) * (1 - t) + 0 * t⌋⟩

/-- applyHeatDecay from heatmapUtils: heat[t] = heat[t-1] * (1 - decayRate). -/
def applyHeatDecay (currentHeat decayRate : ℚ) : ℚ :=
  currentHeat * (1 - decayRate)

/-- The heat accumulator state: landmark index ↦ stored heat (absent = no entry). -/
abbrev HeatMap : Type := Nat → Option ℚ

/-- The empty heat map. -/
def emptyHeat : HeatMap := fun _ => none

/-- Point update of a heat map. -/
def setHeat (m : HeatMap) (i : Nat) (v : ℚ) : HeatMap :=
  fun j => if j = i then some v else m j

/-- The decay pass of HeatmapRenderer.render: every stored entry is decayed by
applyHeatDecay and kept only if the result exceeds 0.01. -/
def decayPass (m : HeatMap) (decayFactor : ℚ) : HeatMap :=
  fun i =>
    match m i with
    | some heat =>
        let decayedHeat := applyHeatDecay heat decayFactor
        if decayedHeat > 1/100 then some decayedHeat else none
    | none => none

/-- The update pass of HeatmapRenderer.render, iterating over the landmark list
starting at index k: each landmark with visibility > 0.5 gets heat
max(intensity, existing * 0.8). -/
def updatePassFrom (m : HeatMap) (k : Nat) (lms : List Landmark) (intensity : ℚ) :
    HeatMap :=
  match lms with
  | [] => m
  | lm :: rest =>
      let m' :=
        if lm.visibility > 1/2 then
          setHeat m k (max intensity (((m k).getD 0) * (4/5)))
        else m
      updatePassFrom m' (k + 1) rest intensity

/-- One tick of the heat accumulator: the decay pass, then the update pass over
the current frame's landmarks. -/
def heatTick (m : HeatMap) (lms : List Landmark) (intensity decayFactor : ℚ) :
    HeatMap :=
  updatePassFrom (decayPass m decayFactor) 0 lms intensity

/-- calculateLandmarkDistance from motionUtils: 3-D Euclidean distance between
two landmarks. -/
noncomputable def calculateLandmarkDistance (l1 l2 : Landmark) : ℝ :=
  Real.sqrt
    (((l1.x - l2.x) * (l1.x - l2.x) + (l1.y - l2.y) * (l1.y - l2.y) +
        (l1.z - l2.z) * (l1.z - l2.z) : ℚ) : ℝ)

/-- calculateMovementIntensity from motionUtils: loop over corresponding
landmark pairs accumulating (total movement, visible count) for pairs where
both visibilities exceed 0.5, then average (0 if no pair qualifies). -/
noncomputable def calculateMovementIntensity
    (currentLandmarks previousLandmarks : List Landmark) : ℝ :=
  if previousLandmarks.length = 0 then 0
  else
    let acc := (currentLandmarks.zip previousLandmarks).foldl
      (fun acc p =>
        if p.1.visibility > 1/2 ∧ p.2.visibility > 1/2 then
          (acc.1 + calculateLandmarkDistance p.1 p.2, acc.2 + 1)
        else acc)
      ((0 : ℝ), (0 : ℕ))
    if acc.2 > 0 then acc.1 / (acc.2 : ℝ) else 0

/-- normalizeMovement from motionUtils: min(movement/threshold, 1), then
max with 0. -/
noncomputable def normalizeMovement (movement threshold : ℝ) : ℝ :=
  max 0 (min (movement / threshold) 1)

/-- The sensitivity-to-threshold mapping of MotionAnalyzer:
threshold = 0.01 + (100 - sensitivity) * 0.0009. -/
def analyzerThreshold (sensitivity : ℚ) : ℚ :=
  1/100 + (100 - sensitivity) * (9/10000)

/-- The fixed set of named body regions. -/
inductive BodyRegion where
  | head
  | torso
  | leftArm
  | rightArm
  | leftLeg
  | rightLeg
deriving DecidableEq

/-- LANDMARK_REGIONS from motionUtils: landmark index ↦ body region. -/
def LANDMARK_REGIONS : Nat → Option BodyRegion
  | 0 => some .head
  | 2 => some .head
  | 5 => some .head
  | 7 => some .head
  | 8 => some .head
  | 11 => some .torso
  | 12 => some .torso
  | 13 => some .leftArm
  | 15 => some .leftArm
  | 14 => some .rightArm
  | 16 => some .rightArm
  | 23 => some .leftLeg
  | 25 => some .leftLeg
  | 27 => some .leftLeg
  | 24 => some .rightLeg
  | 26 => some .rightLeg
  | 28 => some .rightLeg
  | _ => none

/-- The accumulation loop of getBodyRegionMovement: per-region movement sums
and qualifying-pair counts over the indexed landmark pairs. -/
noncomputable def regionFold (currentLandmarks previousLandmarks : List Landmark) :
    (BodyRegion → ℝ) × (BodyRegion → ℕ) :=
  (currentLandmarks.zip previousLandmarks).enum.foldl
    (fun (acc : (BodyRegion → ℝ) × (BodyRegion → ℕ))
        (p : Nat × (Landmark × Landmark)) =>
      match LANDMARK_REGIONS p.1 with
      | none => acc
      | some reg =>
          if p.2.1.visibility > 1/2 ∧ p.2.2.visibility > 1/2 then
            (fun r => if r = reg then acc.1 r + calculateLandmarkDistance p.2.1 p.2.2
              else acc.1 r,
             fun r => if r = reg then acc.2 r + 1 else acc.2 r)
          else acc)
    (fun _ => 0, fun _ => 0)

/-- getBodyRegionMovement from motionUtils: region values start at 0; if the
previous set is empty all regions stay 0; otherwise each region's accumulated
sum is divided by its count when the count is positive. -/
noncomputable def getBodyRegionMovement
    (currentLandmarks previousLandmarks : List Landmark) (r : BodyRegion) : ℝ :=
  if previousLandmarks.length = 0 then 0
  else
    let acc := regionFold currentLandmarks previousLandmarks
    if acc.2 r > 0 then acc.1 r / (acc.2 r : ℝ) else acc.1 r

/-- The movement summary produced by MotionAnalyzer each frame. -/
structure MovementData where
  intensity : ℝ
  regionMovement : BodyRegion → ℝ
  landmarks : List Landmark
  previousLandmarks : Option (List Landmark)

/-- One invocation of MotionAnalyzer's per-frame effect: given the stored
previous landmarks and the incoming detection (none = no detection), returns
the new stored state and the emitted movement data. -/
noncomputable def motionAnalyzerStep (prev : Option (List Landmark))
    (input : Option (List Landmark)) (sensitivity : ℚ) :
    Option (List Landmark) × Option MovementData :=
  match input with
  | none => (none, none)
  | some lms =>
      if lms.length = 0 then (none, none)
      else
        match prev with
        | some p =>
            (some lms,
              some
                { intensity :=
                    normalizeMovement (calculateMovementIntensity lms p)
                      ((analyzerThreshold sensitivity : ℚ) : ℝ)
                  regionMovement := getBodyRegionMovement lms p
                  landmarks := lms
                  previousLandmarks := some p })
        | none =>
            (some lms,
              some
                { intensity := 0
                  regionMovement := fun _ => 0
                  landmarks := lms
                  previousLandmarks := none })

/-- For rational radicands and bounds, comparison of a real square root against
a bound is decidable: sqrt q < b iff 0 < b and q < b*b. -/
instance (q b : ℚ) : Decidable (Real.sqrt ((q : ℚ) : ℝ) < ((b : ℚ) : ℝ)) :=
  decidable_of_iff (0 < b ∧ q < b * b)
    (by
      constructor
      · rintro ⟨hb, hq⟩
        have hb' : (0 : ℝ) < (b : ℚ) := by exact_mod_cast hb
        rw [Real.sqrt_lt' hb']
        have : ((q : ℚ) : ℝ) < ((b * b : ℚ) : ℝ) := by exact_mod_cast hq
        calc ((q : ℚ) : ℝ) < ((b * b : ℚ) : ℝ) := this
          _ = ((b : ℚ) : ℝ) ^ 2 := by push_cast; ring
      · intro h
        have hb : (0 : ℝ) < ((b : ℚ) : ℝ) :=
          lt_of_le_of_lt (Real.sqrt_nonneg _) h
        have hb' : (0 : ℚ) < b := by exact_mod_cast hb
        refine ⟨hb', ?_⟩
        rw [Real.sqrt_lt' hb] at h
        have : ((q : ℚ) : ℝ) < ((b * b : ℚ) : ℝ) := by
          calc ((q : ℚ) : ℝ) < ((b : ℚ) : ℝ) ^ 2 := h
            _ = ((b * b : ℚ) : ℝ) := by push_cast; ring
        exact_mod_cast this)

/-- Per-hand detection result of detectRaisedHands. -/
structure HandInfo where
  detected : Bool
  position : Option (ℚ × ℚ)
deriving DecidableEq

/-- Combined result of detectRaisedHands. -/
structure RaisedHandsResult where
  leftHand : HandInfo
  rightHand : HandInfo
  handsTogether : Bool
  mergedPosition : Option (ℚ × ℚ)
deriving DecidableEq

/-- detectRaisedHands from gestureUtils: guard for fewer than 17 landmarks,
then per-side raised-hand checks at the MediaPipe shoulder/elbow/wrist
indices, then the merge test on the planar wrist distance. -/
def detectRaisedHands (landmarks : List Landmark) : RaisedHandsResult :=
  if landmarks.length < 17 then
    ⟨⟨false, none⟩, ⟨false, none⟩, false, none⟩
  else
    let leftShoulder := landmarks.getD 11 ⟨0, 0, 0, 0⟩
    let rightShoulder := landmarks.getD 12 ⟨0, 0, 0, 0⟩
    let leftElbow := landmarks.getD 13 ⟨0, 0, 0, 0⟩
    let rightElbow := landmarks.getD 14 ⟨0, 0, 0, 0⟩
    let leftWrist := landmarks.getD 15 ⟨0, 0, 0, 0⟩
    let rightWrist := landmarks.getD 16 ⟨0, 0, 0, 0⟩
    let threshold : ℚ := 15/100
    let mergeThreshold : ℚ := 1/10
    let leftRes : Bool × Option (ℚ × ℚ) :=
      if leftWrist.visibility > 1/2 ∧ leftElbow.visibility > 1/2 ∧
          leftShoulder.visibility > 1/2 then
        if leftWrist.y < leftElbow.y - threshold ∧
            leftWrist.y < leftShoulder.y - threshold * (1/2) then
          (true, some (leftWrist.x, leftWrist.y))
        else (false, none)
      else (false, none)
    let rightRes : Bool × Option (ℚ × ℚ) :=
      if rightWrist.visibility > 1/2 ∧ rightElbow.visibility > 1/2 ∧
          rightShoulder.visibility > 1/2 then
        if rightWrist.y < rightElbow.y - threshold ∧
            rightWrist.y < rightShoulder.y - threshold * (1/2) then
          (true, some (rightWrist.x, rightWrist.y))
        else (false, none)
      else (false, none)
    let together : Bool × Option (ℚ × ℚ) :=
      match leftRes, rightRes with
      | (true, some lp), (true, some rp) =>
          let dx := lp.1 - rp.1
          let dy := lp.2 - rp.2
          if Real.sqrt ((dx * dx + dy * dy : ℚ) : ℝ) < ((mergeThreshold : ℚ) : ℝ) then
            (true, some ((lp.1 + rp.1) / 2, (lp.2 + rp.2) / 2))
          else (false, none)
      | _, _ => (false, none)
    ⟨⟨leftRes.1 && !together.1, if together.1 then none else leftRes.2⟩,
      ⟨rightRes.1 && !together.1, if together.1 then none else rightRes.2⟩,
      together.1, together.2⟩

/-- Modelled from the spec, for comparison with the source's
calculateMovementIntensity: the mean of the 3-D distances over the pairs
where both visibilities exceed 0.5, and 0 when no pair qualifies. -/
noncomputable def specRawIntensity (current previous : List Landmark) : ℝ :=
  let qualifying := (current.zip previous).filter
    (fun p => decide (p.1.visibility > 1/2 ∧ p.2.visibility > 1/2))
  if qualifying.length = 0 then 0
  else (qualifying.map (fun p => calculateLandmarkDistance p.1 p.2)).sum /
    (qualifying.length : ℝ)

/-- Modelled from the spec's gradient table, for comparison with the source's
movementToColor: clamp to [0,1], three linear segments with boundaries 0.33
and 0.66 (last segment divided by 0.34), each channel floored. -/
def specColorRamp (heat : ℚ) : RGBColor :=
  let c := max 0 (min 1 heat)
  if c < 33/100 then
    let t := c / (33/100)
    ⟨⌊(0 : ℚ) * (1 - t) + 0 * t⌋, ⌊(100 : ℚ) * (1 - t) + 255 * t⌋,
      ⌊(255 : ℚ) * (1 - t) + 0 * t⌋⟩
  else if c < 66/100 then
    let t := (c - 33/100) / (33/100)
    ⟨⌊(0 : ℚ) * (1 - t) + 255 * t⌋, ⌊(255 : ℚ) * (1 - t) + 255 * t⌋,
      ⌊(0 : ℚ) * (1 - t) + 0 * t⌋⟩
  else
    let t := (c - 66/100) / (34/100)
    ⟨⌊(255 : ℚ) * (1 - t) + 255 * t⌋, ⌊(255 : ℚ) * (1 - t) + 0 * t⌋,
      ⌊(0 : ℚ) * (1 - t) + 0 * t⌋⟩

/-- A 17-landmark frame with both wrists raised and 0.05 apart (merged). -/
def handsCloseFrame : List Landmark :=
  [⟨0, 0, 0, 0⟩, ⟨0, 0, 0, 0⟩, ⟨0, 0, 0, 0⟩, ⟨0, 0, 0, 0⟩, ⟨0, 0, 0, 0⟩,
   ⟨0, 0, 0, 0⟩, ⟨0, 0, 0, 0⟩, ⟨0, 0, 0, 0⟩, ⟨0, 0, 0, 0⟩, ⟨0, 0, 0, 0⟩,
   ⟨0, 0, 0, 0⟩,
   ⟨3/10, 1/2, 0, 1⟩, ⟨7/10, 1/2, 0, 1⟩,
   ⟨3/10, 3/5, 0, 1⟩, ⟨7/10, 3/5, 0, 1⟩,
   ⟨1/2, 1/5, 0, 1⟩, ⟨11/20, 1/5, 0, 1⟩]

/-- A 17-landmark frame with both wrists raised but 0.45 apart (not merged). -/
def handsFarFrame : List Landmark :=
  [⟨0, 0, 0, 0⟩, ⟨0, 0, 0, 0⟩, ⟨0, 0, 0, 0⟩, ⟨0, 0, 0, 0⟩, ⟨0, 0, 0, 0⟩,
   ⟨0, 0, 0, 0⟩, ⟨0, 0, 0, 0⟩, ⟨0, 0, 0, 0⟩, ⟨0, 0, 0, 0⟩, ⟨0, 0, 0, 0⟩,
   ⟨0, 0, 0, 0⟩,
   ⟨3/10, 1/2, 0, 1⟩, ⟨7/10, 1/2, 0, 1⟩,
   ⟨3/10, 3/5, 0, 1⟩, ⟨7/10, 3/5, 0, 1⟩,
   ⟨1/2, 1/5, 0, 1⟩, ⟨19/20, 1/5, 0, 1⟩]

/-- A heat map holding heat 0.9 at landmark index 0. -/
def heat09 : HeatMap := fun i => if i = 0 then some (9/10) else none

/-- A heat map holding heat 0.005 (below the removal epsilon) at index 0. -/
def heatLow : HeatMap := fun i => if i = 0 then some (1/200) else none

/-- A one-landmark frame whose single landmark is fully visible. -/
def visFrame : List Landmark := [⟨0, 0, 0, 1⟩]

/-- A current frame whose head landmark moved 5 normalized units along x. -/
def bigMoveCur : List Landmark := [⟨5, 0, 0, 1⟩]

/-- The corresponding previous frame for the big head move. -/
def bigMovePrev : List Landmark := [⟨0, 0, 0, 1⟩]

/- ------------------------------------------------------------------ -/
/- Helper lemmas. -/
/- ------------------------------------------------------------------ -/

/-- Evaluating a square root of a rational that is a perfect square. -/
theorem sqrt_of_sq (a b : ℝ) (hb : 0 ≤ b) (h : b ^ 2 = a) : Real.sqrt a = b := by
  rw [← h]
  exact Real.sqrt_sq hb

/-- The update pass never touches indices below its starting index. -/
theorem updatePassFrom_lt (lms : List Landmark) :
    ∀ (m : HeatMap) (k j : Nat) (c : ℚ), j < k →
      updatePassFrom m k lms c j = m j := by
  induction lms with
  | nil => intro m k j c _; rfl
  | cons lm rest ih =>
      intro m k j c hj
      simp only [updatePassFrom]
      rw [ih _ (k + 1) j c (Nat.lt_succ_of_lt hj)]
      by_cases hv : lm.visibility > 1/2
      · rw [if_pos hv]
        simp only [setHeat]
        rw [if_neg (Nat.ne_of_lt hj)]
      · rw [if_neg hv]

/-- Pointwise description of the update pass: index k + n is rewritten to
max(intensity, stored * 0.8) exactly when landmark n exists and is visible. -/
theorem updatePassFrom_get (lms : List Landmark) :
    ∀ (m : HeatMap) (k n : Nat) (c : ℚ),
      updatePassFrom m k lms c (k + n) =
        match lms.get? n with
        | some lm =>
            if lm.visibility > 1/2 then
              some (max c (((m (k + n)).getD 0) * (4/5)))
            else m (k + n)
        | none => m (k + n) := by
  induction lms with
  | nil => intro m k n c; rfl
  | cons lm rest ih =>
      intro m k n c
      simp only [updatePassFrom]
      cases n with
      | zero =>
          rw [updatePassFrom_lt rest _ (k + 1) (k + 0) c (by omega)]
          simp only [Nat.add_zero, List.get?]
          by_cases hv : lm.visibility > 1/2
          · rw [if_pos hv, if_pos hv]
            simp [setHeat]
          · rw [if_neg hv, if_neg hv]
      | succ n' =>
          have harith : k + (n' + 1) = (k + 1) + n' := by omega
          rw [harith, ih _ (k + 1) n' c]
          have hm' :
              (if lm.visibility > 1/2 then
                  setHeat m k (max c (((m k).getD 0) * (4/5)))
                else m) ((k + 1) + n') = m ((k + 1) + n') := by
            by_cases hv : lm.visibility > 1/2
            · rw [if_pos hv]
              simp only [setHeat]
              rw [if_neg (by omega)]
            · rw [if_neg hv]
          rw [hm']
          simp only [List.get?]

/-- Pointwise description of a full tick: decay first, then the update rule at
every visible landmark of the current frame. -/
theorem heatTick_apply (m : HeatMap) (lms : List Landmark) (c d : ℚ) (j : Nat) :
    heatTick m lms c d j =
      match lms.get? j with
      | some lm =>
          if lm.visibility > 1/2 then
            some (max c (((decayPass m d j).getD 0) * (4/5)))
          else decayPass m d j
      | none => decayPass m d j := by
  have h := updatePassFrom_get lms (decayPass m d) 0 j c
  simpa [heatTick, Nat.zero_add] using h

/-- The decay pass keeps an entry only when its decayed value exceeds 0.01. -/
theorem decayPass_some (m : HeatMap) (d : ℚ) (i : Nat) (h : ℚ)
    (hs : decayPass m d i = some h) : h > 1/100 ∧ ∃ h0, m i = some h0 ∧ h = h0 * (1 - d) := by
  unfold decayPass at hs
  cases hm : m i with
  | none => rw [hm] at hs; cases hs
  | some h0 =>
      rw [hm] at hs
      simp only [applyHeatDecay] at hs
      by_cases hk : h0 * (1 - d) > 1/100
      · rw [if_pos hk] at hs
        cases hs
        exact ⟨hk, h0, rfl, rfl⟩
      · rw [if_neg hk] at hs
        cases hs

/-- A landmark distance is a square root, hence nonnegative. -/
theorem calculateLandmarkDistance_nonneg (l1 l2 : Landmark) :
    0 ≤ calculateLandmarkDistance l1 l2 :=
  Real.sqrt_nonneg _

/-- The accumulation loop of calculateMovementIntensity computes the sum of the
qualifying distances and the count of qualifying pairs. -/
theorem movement_foldl (l : List (Landmark × Landmark)) :
    ∀ (t : ℝ) (c : ℕ),
      l.foldl
        (fun acc p =>
          if p.1.visibility > 1/2 ∧ p.2.visibility > 1/2 then
            (acc.1 + calculateLandmarkDistance p.1 p.2, acc.2 + 1)
          else acc) (t, c) =
      (t + ((l.filter fun p => decide (p.1.visibility > 1/2 ∧ p.2.visibility > 1/2)).map
          (fun p => calculateLandmarkDistance p.1 p.2)).sum,
       c + (l.filter fun p => decide (p.1.visibility > 1/2 ∧ p.2.visibility > 1/2)).length) := by
  induction l with
  | nil => intro t c; simp
  | cons p rest ih =>
      intro t c
      by_cases hp : p.1.visibility > 1/2 ∧ p.2.visibility > 1/2
      · rw [List.foldl_cons, if_pos hp, ih]
        simp only [List.filter_cons]
        rw [if_pos (by simpa using hp)]
        simp only [List.map_cons, List.sum_cons, List.length_cons, Prod.mk.injEq]
        exact ⟨by ring, by omega⟩
      · rw [List.foldl_cons, if_neg hp, ih]
        simp only [List.filter_cons]
        rw [if_neg (by simpa using hp)]

/-- The region accumulation loop keeps every region sum nonnegative. -/
theorem regionFold_nonneg_aux :
    ∀ (l : List (Nat × (Landmark × Landmark)))
      (acc : (BodyRegion → ℝ) × (BodyRegion → ℕ)),
      (∀ r, (0 : ℝ) ≤ acc.1 r) → ∀ r,
      (0 : ℝ) ≤ (l.foldl
        (fun (acc : (BodyRegion → ℝ) × (BodyRegion → ℕ))
            (p : Nat × (Landmark × Landmark)) =>
          match LANDMARK_REGIONS p.1 with
          | none => acc
          | some reg =>
              if p.2.1.visibility > 1/2 ∧ p.2.2.visibility > 1/2 then
                (fun r => if r = reg then acc.1 r + calculateLandmarkDistance p.2.1 p.2.2
                  else acc.1 r,
                 fun r => if r = reg then acc.2 r + 1 else acc.2 r)
              else acc) acc).1 r := by
  intro l
  induction l with
  | nil => intro acc h r; exact h r
  | cons p rest ih =>
      intro acc h r
      rw [List.foldl_cons]
      apply ih
      intro r'
      cases hreg : LANDMARK_REGIONS p.1 with
      | none => simp only [hreg]; exact h r'
      | some reg =>
          simp only [hreg]
          by_cases hv : p.2.1.visibility > 1/2 ∧ p.2.2.visibility > 1/2
          · rw [if_pos hv]
            dsimp only
            by_cases hr : r' = reg
            · rw [if_pos hr]
              exact add_nonneg (h r') (calculateLandmarkDistance_nonneg _ _)
            · rw [if_neg hr]
              exact h r'
          · rw [if_neg hv]
            exact h r'

/-- Clamping to [0,1] is idempotent over the rationals. -/
theorem clamp_idem (x : ℚ) :
    max 0 (min 1 (max 0 (min 1 x))) = max 0 (min 1 x) := by
  have h2 : max 0 (min 1 x) ≤ 1 := max_le (by norm_num) (min_le_left _ _)
  rw [min_eq_right h2, max_eq_right (le_max_left _ _)]

/-- The two orders of applying the [0,1] clamp agree over the reals. -/
theorem clamp_orders (x : ℝ) : max 0 (min x 1) = min (max x 0) 1 := by
  rcases le_total x 0 with h | h
  · rw [min_eq_left (le_trans h (by norm_num)), max_eq_left h,
      max_eq_right h, min_eq_left (by norm_num)]
  · rcases le_total x 1 with h1 | h1
    · rw [min_eq_left h1, max_eq_right h, max_eq_left h, min_eq_left h1]
    · rw [min_eq_right h1, max_eq_right (by norm_num), max_eq_left h,
        min_eq_right h1]

/-- Evaluation of the gesture detector on the close-hands frame. -/
theorem detectRaisedHands_close_eval :
    detectRaisedHands handsCloseFrame =
      ⟨⟨false, none⟩, ⟨false, none⟩, true, some (21/40, 1/5)⟩ := by
  have h400 : Real.sqrt 400 = 20 := sqrt_of_sq 400 20 (by norm_num) (by norm_num)
  norm_num [detectRaisedHands, handsCloseFrame, h400]

/-- Evaluation of the gesture detector on the far-hands frame. -/
theorem detectRaisedHands_far_eval :
    detectRaisedHands handsFarFrame =
      ⟨⟨true, some (1/2, 1/5)⟩, ⟨true, some (19/20, 1/5)⟩, false, none⟩ := by
  have h400 : Real.sqrt 400 = 20 := sqrt_of_sq 400 20 (by norm_num) (by norm_num)
  have h81 : Real.sqrt 81 = 9 := sqrt_of_sq 81 9 (by norm_num) (by norm_num)
  norm_num [detectRaisedHands, handsFarFrame, h400, h81]

/-- Tick value at an index whose landmark exists in the current frame. -/
theorem heatTick_get (m : HeatMap) (lms : List Landmark) (c d : ℚ) (j : Nat)
    (lm : Landmark) (hg : lms.get? j = some lm) :
    heatTick m lms c d j =
      if lm.visibility > 1/2 then
        some (max c (((decayPass m d j).getD 0) * (4/5)))
      else decayPass m d j := by
  rw [heatTick_apply, hg]

/-- Tick value at an index beyond the current frame: only the decay pass acts. -/
theorem heatTick_none (m : HeatMap) (lms : List Landmark) (c d : ℚ) (j : Nat)
    (hg : lms.get? j = none) :
    heatTick m lms c d j = decayPass m d j := by
  rw [heatTick_apply, hg]

/- ------------------------------------------------------------------ -/
/- Claim theorems. -/
/- ------------------------------------------------------------------ -/

/-- C1, counterexample: with decayFactor 0 and frame intensity 0, the heat of a
visible landmark drops from 0.9 to 0.72 in one tick — strictly below
oldValue * (1 - decayFactor) = 0.9, so heat does drop faster than the explicit
decay rate and does decrease despite decayFactor = 0. -/
theorem heat_never_drops_faster_counterexample :
    heat09 0 = some (9/10) ∧
    heatTick heat09 visFrame 0 0 0 = some (18/25) ∧
    ¬ ((9/10 : ℚ) * (1 - 0) ≤ 18/25) := by
  refine ⟨by norm_num [heat09], ?_, by norm_num⟩
  norm_num [heatTick, updatePassFrom, decayPass, applyHeatDecay, setHeat,
    heat09, visFrame]

/-- C1, amended: for an index present before and after a tick, the new heat is
at least oldValue * (1 - decayFactor) * 0.8 — the update pass may shave a
further factor 0.8 below the explicit decay — unless the decayed value fell at
or below the 0.01 purge epsilon, in which case the surviving entry was
re-seeded at no less than the frame intensity. -/
theorem heat_decay_lower_bound (m : HeatMap) (lms : List Landmark) (c d : ℚ)
    (i : Nat) (h h' : ℚ) (hh : 0 ≤ h) (hd1 : d ≤ 1)
    (hm : m i = some h) (ht : heatTick m lms c d i = some h') :
    h * (1 - d) * (4/5) ≤ h' ∨ (h * (1 - d) ≤ 1/100 ∧ c ≤ h') := by
  have hdec : decayPass m d i =
      if h * (1 - d) > 1/100 then some (h * (1 - d)) else none := by
    simp [decayPass, hm, applyHeatDecay]
  have hnn : 0 ≤ h * (1 - d) := mul_nonneg hh (by linarith)
  have hcase : decayPass m d i = some h' → h * (1 - d) * (4/5) ≤ h' := by
    intro hsome
    rw [hdec] at hsome
    by_cases hk : h * (1 - d) > 1/100
    · rw [if_pos hk] at hsome
      injection hsome with hs
      rw [← hs]
      exact mul_le_of_le_one_right hnn (by norm_num)
    · rw [if_neg hk] at hsome
      cases hsome
  cases hg : lms.get? i with
  | none =>
      rw [heatTick_none m lms c d i hg] at ht
      exact Or.inl (hcase ht)
  | some lm =>
      rw [heatTick_get m lms c d i lm hg] at ht
      by_cases hv : lm.visibility > 1/2
      · rw [if_pos hv] at ht
        injection ht with ht'
        rw [hdec] at ht'
        by_cases hk : h * (1 - d) > 1/100
        · rw [if_pos hk] at ht'
          simp only [Option.getD_some] at ht'
          left
          rw [← ht']
          exact le_max_right _ _
        · rw [if_neg hk] at ht'
          simp only [Option.getD_none] at ht'
          right
          refine ⟨not_lt.mp hk, ?_⟩
          rw [← ht']
          exact le_max_left _ _
      · rw [if_neg hv] at ht
        exact Or.inl (hcase ht)

/-- C1, witness: a concrete tick (heat 0.9, intensity 0.2, decayFactor 0.5 at a
visible landmark) satisfies the amended lower bound. -/
theorem heat_decay_lower_bound_witness :
    (9/10 : ℚ) * (1 - 1/2) * (4/5) ≤ 36/100 ∨
      ((9/10 : ℚ) * (1 - 1/2) ≤ 1/100 ∧ (2/10 : ℚ) ≤ 36/100) :=
  heat_decay_lower_bound heat09 visFrame (2/10) (1/2) 0 (9/10) (36/100)
    (by norm_num) (by norm_num)
    (by norm_num [heat09])
    (by norm_num [heatTick, updatePassFrom, decayPass, applyHeatDecay, setHeat,
      heat09, visFrame])

/-- C2: each tick runs the decay pass first (every entry becomes
oldValue * (1 - decayFactor), removed when ≤ 0.01), then the update pass sets
every visible landmark's heat to max(intensity, decayedExisting * 0.8);
concretely, heat 0.9 with decayFactor 0.5 and intensity 0.2 yields 0.36 —
neither 0.2 nor the average of 0.2 and 0.45. -/
theorem heat_tick_order_and_max_rule :
    (∀ (m : HeatMap) (d : ℚ) (i : Nat) (h : ℚ), m i = some h →
      decayPass m d i =
        if applyHeatDecay h d > 1/100 then some (applyHeatDecay h d) else none) ∧
    (∀ (m : HeatMap) (lms : List Landmark) (c d : ℚ) (i : Nat) (lm : Landmark),
      lms.get? i = some lm → lm.visibility > 1/2 →
      heatTick m lms c d i =
        some (max c (((decayPass m d i).getD 0) * (4/5)))) ∧
    heatTick heat09 visFrame (2/10) (1/2) 0 = some (36/100) ∧
    (36/100 : ℚ) ≠ 2/10 ∧ (36/100 : ℚ) ≠ (2/10 + 45/100) / 2 := by
  refine ⟨?_, ?_, ?_, by norm_num, by norm_num⟩
  · intro m d i h hm
    simp [decayPass, hm]
  · intro m lms c d i lm hg hv
    rw [heatTick_get m lms c d i lm hg, if_pos hv]
  · norm_num [heatTick, updatePassFrom, decayPass, applyHeatDecay, setHeat,
      heat09, visFrame]

/-- C2, witness: the update rule applied at the concrete 0.9/0.5/0.2 tick. -/
theorem heat_tick_order_and_max_rule_witness :
    heatTick heat09 visFrame (2/10) (1/2) 0 =
      some (max (2/10) (((decayPass heat09 (1/2) 0).getD 0) * (4/5))) :=
  heat_tick_order_and_max_rule.2.1 heat09 visFrame (2/10) (1/2) 0 ⟨0, 0, 0, 1⟩
    rfl (by norm_num)

/-- C3, counterexample: a tick with frame intensity 0 writes heat 0 for a
visible landmark, so after the completed tick the map holds an entry whose
value 0 is not greater than the epsilon 0.01. -/
theorem heat_epsilon_invariant_counterexample :
    heatTick emptyHeat visFrame 0 0 0 = some 0 ∧ ¬ ((0 : ℚ) > 1/100) := by
  refine ⟨?_, by norm_num⟩
  norm_num [heatTick, updatePassFrom, decayPass, setHeat, emptyHeat, visFrame]

/-- C3, amended: every entry surviving the decay pass exceeds 0.01, and the
invariant holds after a full tick whenever the frame intensity exceeds 0.01;
an entry left at or below 0.01 by the update pass is removed by the next
tick's decay pass. -/
theorem heat_epsilon_invariant_amended :
    (∀ (m : HeatMap) (d : ℚ) (i : Nat) (h : ℚ),
      decayPass m d i = some h → h > 1/100) ∧
    (∀ (m : HeatMap) (lms : List Landmark) (c d : ℚ) (i : Nat) (h : ℚ),
      c > 1/100 → heatTick m lms c d i = some h → h > 1/100) ∧
    (∀ (m : HeatMap) (d : ℚ) (i : Nat) (h : ℚ), 0 ≤ d → d ≤ 1 →
      m i = some h → 0 ≤ h → h ≤ 1/100 → decayPass m d i = none) := by
  refine ⟨?_, ?_, ?_⟩
  · intro m d i h hs
    exact (decayPass_some m d i h hs).1
  · intro m lms c d i h hc ht
    cases hg : lms.get? i with
    | none =>
        rw [heatTick_none m lms c d i hg] at ht
        exact (decayPass_some m d i h ht).1
    | some lm =>
        rw [heatTick_get m lms c d i lm hg] at ht
        by_cases hv : lm.visibility > 1/2
        · rw [if_pos hv] at ht
          injection ht with ht'
          rw [← ht']
          exact lt_of_lt_of_le hc (le_max_left _ _)
        · rw [if_neg hv] at ht
          exact (decayPass_some m d i h ht).1
  · intro m d i h hd0 hd1 hm hh0 hheps
    have hle : h * (1 - d) ≤ 1/100 :=
      le_trans (mul_le_of_le_one_right hh0 (by linarith)) hheps
    simp only [decayPass, hm, applyHeatDecay]
    rw [if_neg (not_lt.mpr hle)]

/-- C3, witness: concrete instances of all three amended properties. -/
theorem heat_epsilon_invariant_amended_witness :
    ((9/20 : ℚ) > 1/100) ∧ ((2/10 : ℚ) > 1/100) ∧
    decayPass heatLow (1/2) 0 = none := by
  refine ⟨?_, ?_, ?_⟩
  · exact heat_epsilon_invariant_amended.1 heat09 (1/2) 0 (9/20)
      (by norm_num [decayPass, heat09, applyHeatDecay])
  · exact heat_epsilon_invariant_amended.2.1 emptyHeat visFrame (2/10) 0 0 (2/10)
      (by norm_num)
      (by norm_num [heatTick, updatePassFrom, decayPass, setHeat, emptyHeat,
        visFrame])
  · exact heat_epsilon_invariant_amended.2.2 heatLow (1/2) 0 (1/200)
      (by norm_num) (by norm_num) (by norm_num [heatLow]) (by norm_num)
      (by norm_num)

/-- C4: for every sensitivity in [0,100] the movement threshold equals
0.01 + (100 - sensitivity) * 0.0009, lies in [0.01, 0.1], and the normalized
intensity equals clamp(raw / threshold, 0, 1). -/
theorem sensitivity_threshold_and_clamp (s : ℚ) (h0 : 0 ≤ s) (h100 : s ≤ 100) :
    analyzerThreshold s = 1/100 + (100 - s) * (9/10000) ∧
    (1/100 ≤ analyzerThreshold s ∧ analyzerThreshold s ≤ 1/10) ∧
    ∀ raw : ℝ, normalizeMovement raw ((analyzerThreshold s : ℚ) : ℝ) =
      min (max (raw / ((analyzerThreshold s : ℚ) : ℝ)) 0) 1 := by
  refine ⟨rfl, ⟨?_, ?_⟩, ?_⟩
  · unfold analyzerThreshold
    nlinarith
  · unfold analyzerThreshold
    nlinarith
  · intro raw
    unfold normalizeMovement
    exact clamp_orders _

/-- C4, witness: the threshold facts and clamp law at sensitivity 50. -/
theorem sensitivity_threshold_and_clamp_witness :
    analyzerThreshold 50 = 1/100 + (100 - 50) * (9/10000) ∧
    (1/100 ≤ analyzerThreshold 50 ∧ analyzerThreshold 50 ≤ 1/10) ∧
    ∀ raw : ℝ, normalizeMovement raw ((analyzerThreshold 50 : ℚ) : ℝ) =
      min (max (raw / ((analyzerThreshold 50 : ℚ) : ℝ)) 0) 1 :=
  sensitivity_threshold_and_clamp 50 (by norm_num) (by norm_num)

/-- C5: for equal-length landmark sets, the loop of calculateMovementIntensity
computes exactly the mean 3-D distance over the pairs where both visibilities
exceed 0.5 (contributing to neither numerator nor denominator otherwise), and
0 when no pair qualifies. -/
theorem raw_intensity_is_mean (cur prev : List Landmark)
    (hlen : cur.length = prev.length) :
    calculateMovementIntensity cur prev = specRawIntensity cur prev := by
  simp only [calculateMovementIntensity, specRawIntensity]
  by_cases hp : prev.length = 0
  · have hnil : prev = [] := List.length_eq_zero.mp hp
    subst hnil
    simp [List.zip_nil_right]
  · rw [if_neg hp, movement_foldl (cur.zip prev) 0 0]
    dsimp only
    simp only [zero_add]
    by_cases hq : ((cur.zip prev).filter fun p =>
        decide (p.1.visibility > 1/2 ∧ p.2.visibility > 1/2)).length = 0
    · rw [if_neg (by omega), if_pos hq]
    · rw [if_pos (by omega), if_neg hq]

/-- C5, witness: the mean law at a concrete one-landmark pair of frames. -/
theorem raw_intensity_is_mean_witness :
    bigMoveCur.length = bigMovePrev.length ∧
    calculateMovementIntensity bigMoveCur bigMovePrev =
      specRawIntensity bigMoveCur bigMovePrev :=
  ⟨rfl, raw_intensity_is_mean bigMoveCur bigMovePrev rfl⟩

/-- C6, counterexample: a head landmark moving 5 normalized units along x gives
region intensity 5, which is not in [0,1] — region values are raw
unnormalized mean distances. -/
theorem region_intensity_counterexample :
    getBodyRegionMovement bigMoveCur bigMovePrev BodyRegion.head = 5 ∧
    ¬ (getBodyRegionMovement bigMoveCur bigMovePrev BodyRegion.head ≤ 1) := by
  have h5 : calculateLandmarkDistance ⟨5, 0, 0, 1⟩ ⟨0, 0, 0, 1⟩ = 5 := by
    unfold calculateLandmarkDistance
    norm_num
    exact sqrt_of_sq 25 5 (by norm_num) (by norm_num)
  have heval : getBodyRegionMovement bigMoveCur bigMovePrev BodyRegion.head = 5 := by
    simp only [getBodyRegionMovement, regionFold, bigMoveCur, bigMovePrev]
    norm_num [List.zip, List.zipWith, List.enum, List.enumFrom, LANDMARK_REGIONS, h5]
  exact ⟨heval, by rw [heval]; norm_num⟩

/-- C6, amended: each per-region value is nonnegative; it is the raw
unnormalized average distance of the region's qualifying landmarks and is not
bounded above by 1. -/
theorem region_intensity_nonneg (cur prev : List Landmark) (r : BodyRegion) :
    0 ≤ getBodyRegionMovement cur prev r := by
  unfold getBodyRegionMovement
  by_cases hp : prev.length = 0
  · rw [if_pos hp]
  · rw [if_neg hp]
    dsimp only
    have hsum : (0 : ℝ) ≤ (regionFold cur prev).1 r :=
      regionFold_nonneg_aux ((cur.zip prev).enum) (fun _ => 0, fun _ => 0)
        (fun _ => le_refl 0) r
    by_cases hc : (regionFold cur prev).2 r > 0
    · rw [if_pos hc]
      exact div_nonneg hsum (Nat.cast_nonneg _)
    · rw [if_neg hc]
      exact hsum

/-- C7: movementToColor clamps any rational input to [0,1], reproduces the
spec's three-segment floored gradient exactly, and attains (0,100,255),
(0,255,0), (255,255,0), (255,0,0) at 0, 0.33, 0.66 and 1. -/
theorem color_ramp_exact :
    (∀ x : ℚ, movementToColor x = specColorRamp x) ∧
    (∀ x : ℚ, movementToColor x = movementToColor (max 0 (min 1 x))) ∧
    movementToColor 0 = ⟨0, 100, 255⟩ ∧
    movementToColor (33/100) = ⟨0, 255, 0⟩ ∧
    movementToColor (66/100) = ⟨255, 255, 0⟩ ∧
    movementToColor 1 = ⟨255, 0, 0⟩ := by
  refine ⟨fun x => rfl, fun x => ?_, ?_, ?_, ?_, ?_⟩
  · simp only [movementToColor]
    rw [clamp_idem]
  · norm_num [movementToColor]
  · norm_num [movementToColor]
  · norm_num [movementToColor]
  · norm_num [movementToColor]

/-- C8: with no stored baseline — first frame of a session, or right after a
null detection (which resets the stored baseline) — the analyzer reports
intensity exactly 0 and every region intensity exactly 0, for every
sensitivity. -/
theorem analyzer_no_baseline_zero :
    (∀ (prev : Option (List Landmark)) (s : ℚ),
      motionAnalyzerStep prev none s = (none, none)) ∧
    (∀ (lms : List Landmark) (s : ℚ), lms.length ≠ 0 →
      (motionAnalyzerStep none (some lms) s).1 = some lms ∧
      ∃ d : MovementData, (motionAnalyzerStep none (some lms) s).2 = some d ∧
        d.intensity = 0 ∧ ∀ r : BodyRegion, d.regionMovement r = 0) := by
  constructor
  · intro prev s
    rfl
  · intro lms s h
    simp only [motionAnalyzerStep]
    rw [if_neg h]
    exact ⟨rfl, ⟨_, rfl, rfl, fun r => rfl⟩⟩

/-- C8, witness: the zero report on a concrete first frame. -/
theorem analyzer_no_baseline_zero_witness :
    visFrame.length ≠ 0 ∧
    ((motionAnalyzerStep none (some visFrame) 0).1 = some visFrame ∧
      ∃ d : MovementData, (motionAnalyzerStep none (some visFrame) 0).2 = some d ∧
        d.intensity = 0 ∧ ∀ r : BodyRegion, d.regionMovement r = 0) :=
  ⟨by decide, analyzer_no_baseline_zero.2 visFrame 0 (by decide)⟩

/-- C9, counterexample: with both wrists raised 0.45 apart, both individual
flags are true and handsTogether is false, so none of the four states
left-only, right-only, merged, none holds — the report is not mutually
exclusive over those four states. -/
theorem gesture_exclusivity_counterexample :
    ¬(((detectRaisedHands handsFarFrame).leftHand.detected = true ∧
        (detectRaisedHands handsFarFrame).rightHand.detected = false ∧
        (detectRaisedHands handsFarFrame).handsTogether = false) ∨
      ((detectRaisedHands handsFarFrame).leftHand.detected = false ∧
        (detectRaisedHands handsFarFrame).rightHand.detected = true ∧
        (detectRaisedHands handsFarFrame).handsTogether = false) ∨
      (detectRaisedHands handsFarFrame).handsTogether = true ∨
      ((detectRaisedHands handsFarFrame).leftHand.detected = false ∧
        (detectRaisedHands handsFarFrame).rightHand.detected = false ∧
        (detectRaisedHands handsFarFrame).handsTogether = false)) := by
  rw [detectRaisedHands_far_eval]
  simp

/-- C9, amended: the merged state suppresses both individual flags (whenever
handsTogether is true both detected flags are false), and both wrists raised
within 0.1 of each other do yield handsTogether true with both flags false;
but when both hands are raised farther apart the report sets both individual
flags, so the four states are not exhaustive. -/
theorem gesture_merged_suppresses :
    (∀ lms : List Landmark, (detectRaisedHands lms).handsTogether = true →
      (detectRaisedHands lms).leftHand.detected = false ∧
      (detectRaisedHands lms).rightHand.detected = false) ∧
    detectRaisedHands handsCloseFrame =
      ⟨⟨false, none⟩, ⟨false, none⟩, true, some (21/40, 1/5)⟩ := by
  constructor
  · intro lms h
    unfold detectRaisedHands at h ⊢
    by_cases hg : lms.length < 17
    · rw [if_pos hg] at h
      cases h
    · rw [if_neg hg] at h ⊢
      revert h
      dsimp only
      intro h
      rw [h]
      simp
  · exact detectRaisedHands_close_eval

/-- C9, witness: the suppression law applied to the merged close-hands frame. -/
theorem gesture_merged_suppresses_witness :
    (detectRaisedHands handsCloseFrame).leftHand.detected = false ∧
    (detectRaisedHands handsCloseFrame).rightHand.detected = false :=
  gesture_merged_suppresses.1 handsCloseFrame
    (by rw [gesture_merged_suppresses.2])

/-- C10: for any landmark array with fewer than 17 elements, detectRaisedHands
returns the all-negative result: both flags false, handsTogether false, and
all positions null. -/
theorem short_input_guard (lms : List Landmark) (h : lms.length < 17) :
    detectRaisedHands lms = ⟨⟨false, none⟩, ⟨false, none⟩, false, none⟩ := by
  unfold detectRaisedHands
  rw [if_pos h]

/-- C10, witness: the guard on the empty landmark array. -/
theorem short_input_guard_witness :
    ([] : List Landmark).length < 17 ∧
    detectRaisedHands [] = ⟨⟨false, none⟩, ⟨false, none⟩, false, none⟩ :=
  ⟨by decide, short_input_guard [] (by decide)⟩
